import Mathlib

/-!
Shallow embedding of the VectorEmbeddingLibrary similarity-search core
(`src/VectorEmbeddingLibrary/similarity_search.py` and
`src/VectorEmbeddingLibrary/embedding.py`).

Python runtime values that the library inspects are modelled by `PyVal`.
Python floats may be non-finite (`nan`, `inf`): `isinstance(x, (int, float))`
is true for those, so the model keeps them as distinct `PyFloat` values.
Exact real arithmetic (ℝ) stands in for IEEE floating point in the
similarity computation; division by zero (numpy: `nan`) becomes Lean's
`x / 0 = 0`, which like `nan` is different from `1`.

The source raises `ValueError` for validation failures (the spec calls this
`ValidationError`) and `RuntimeError` for wrapped storage failures (the
spec's `StorageError`).
-/

/-- A Python float: either a finite value (modelled as a rational) or one of
the non-finite IEEE values. -/
inductive PyFloat where
  | finite : ℚ → PyFloat
  | inf : PyFloat
  | negInf : PyFloat
  | nan : PyFloat
deriving DecidableEq, Repr

/-- A Python runtime value, as far as the library inspects values:
ints, floats, strings, lists, string-keyed dicts, and `None`. -/
inductive PyVal where
  | int : ℤ → PyVal
  | float : PyFloat → PyVal
  | str : String → PyVal
  | list : List PyVal → PyVal
  | dict : List (String × PyVal) → PyVal
  | none : PyVal

/-- `isinstance(x, (int, float))` — the element check used by both backends'
validation. -/
def PyVal.isNumber : PyVal → Bool
  | .int _ => true
  | .float _ => true
  | _ => false

/-- A number that is finite: an int, or a float that is neither `nan` nor
`±inf`.  The source never tests this; it is used only to state claims. -/
def PyVal.isFiniteNumber : PyVal → Bool
  | .int _ => true
  | .float (.finite _) => true
  | _ => false

/-- The elements of a Python list; `[]` on non-lists (only applied to values
that already passed the `isinstance(vector, list)` check). -/
def PyVal.elems : PyVal → List PyVal
  | .list xs => xs
  | _ => []

/-- `metadata[k]` / `k in metadata` combined: the value bound to string key
`k` when the value is a dict containing it. -/
def pyDictGet (m : PyVal) (k : String) : Option PyVal :=
  match m with
  | .dict l => l.lookup k
  | _ => Option.none

/-- The vector validation shared by `index_vector` and `query_similar`:
`isinstance(vector, list) and all(isinstance(x, (int, float)) for x in vector)`.
Note that neither emptiness nor finiteness is part of this check. -/
def vectorOk (v : PyVal) : Bool :=
  match v with
  | .list xs => xs.all PyVal.isNumber
  | _ => false

/-- The metadata validation of `index_vector`:
`isinstance(metadata, dict) and "id" in metadata`. -/
def metadataOk (m : PyVal) : Bool :=
  (pyDictGet m "id").isSome

/-- `metadata["id"]`, only ever used after `metadataOk` has passed. -/
def metaId (m : PyVal) : PyVal :=
  (pyDictGet m "id").getD .none

/-- The exceptions the core raises: `ValueError` is the spec's
`ValidationError`, `RuntimeError` the spec's `StorageError`. -/
inductive PyErr where
  | valueError : String → PyErr
  | runtimeError : String → PyErr
deriving DecidableEq, Repr

/-- Whether a call outcome is a raised `ValueError` (spec: `ValidationError`). -/
def raisedValueError {β : Type} : Except PyErr β → Bool
  | .error (.valueError _) => true
  | _ => false

/-- A stored record: `(id, vector)` as inserted by `index_vector`. -/
abbrev Row : Type := PyVal × List PyVal

/-! ## Numeric model of the cosine-similarity computation

`cosine_similarity` in the source converts both lists to numpy arrays and
returns `np.dot(v1, v2) / (np.linalg.norm(v1) * np.linalg.norm(v2))`.
We interpret the stored numbers as exact reals (`nan`/`±inf`, which exact
arithmetic cannot express, are mapped to a junk value `0`; no claim about
similarity scores involves non-finite inputs). -/

/-- The real number denoted by a Python value (junk `0` for non-numbers and
non-finite floats). -/
noncomputable def PyVal.toReal : PyVal → ℝ
  | .int n => (n : ℝ)
  | .float (.finite q) => (q : ℝ)
  | _ => 0

/-- `np.dot` of two equal-length numeric lists. -/
noncomputable def dotProd (v1 v2 : List PyVal) : ℝ :=
  (List.zipWith (fun a b => a.toReal * b.toReal) v1 v2).sum

/-- `np.linalg.norm`: the Euclidean norm. -/
noncomputable def pyNorm (v : List PyVal) : ℝ :=
  Real.sqrt (dotProd v v)

/-- The client-side `cosine_similarity(v1, v2)` both backends define. -/
noncomputable def cosine_similarity (v1 v2 : List PyVal) : ℝ :=
  dotProd v1 v2 / (pyNorm v1 * pyNorm v2)

/-! ## Scoring, ranking, truncation -/

/-- `[(row.id, cosine_similarity(vector, row.vector)) for row in rows]`. -/
noncomputable def scoreRows (vector : PyVal) (rows : List Row) : List (PyVal × ℝ) :=
  rows.map (fun r => (r.1, cosine_similarity vector.elems r.2))

/-- The comparison `results.sort(key=lambda x: x[1], reverse=True)` sorts by:
`p` may come before `q` exactly when `q`'s score is at most `p`'s. -/
def scoreGE {α : Type} (p q : α × ℝ) : Prop := q.2 ≤ p.2

noncomputable instance scoreGEDecidable {α : Type} : DecidableRel (@scoreGE α) :=
  fun p q => Real.decidableLE q.2 p.2

/-- `results.sort(key=lambda x: x[1], reverse=True)`: Python's sort is
guaranteed stable, and descending-by-key stable sorting is exactly insertion
sort with the relation `scoreGE`. -/
noncomputable def sortByScoreDesc {α : Type} (l : List (α × ℝ)) : List (α × ℝ) :=
  List.insertionSort scoreGE l

/-- Python slicing `l[:k]` for an arbitrary integer `k`: a nonnegative `k`
takes the first `k` elements, a negative `k` drops the last `-k`. -/
def pyTake {α : Type} (k : ℤ) (l : List α) : List α :=
  if 0 ≤ k then l.take k.toNat else l.take (l.length - (-k).toNat)

/-! ## Relational backend (`PostgreSQLSimilaritySearch`)

The psycopg2 connection is modelled by the rows already committed plus the
rows executed inside the current (not yet committed) transaction.  `commit`
publishes pending rows, `rollback` discards them; a read from the same
connection sees committed and own-transaction pending rows.  Storage
failures of the external driver are injected as `Option String` arguments
(`Option.none` = the call succeeds, `some e` = the call raises an exception
with message `e`). -/

structure PGConn where
  committed : List Row
  pending : List Row

/-- `cursor.execute(insert, (id, vector))`: stages a row in the transaction. -/
def pgExecuteInsert (c : PGConn) (r : Row) : PGConn :=
  { c with pending := c.pending ++ [r] }

/-- `connection.commit()`. -/
def pgCommit (c : PGConn) : PGConn :=
  { committed := c.committed ++ c.pending, pending := [] }

/-- `connection.rollback()`. -/
def pgRollback (c : PGConn) : PGConn :=
  { c with pending := [] }

/-- What `SELECT id, vector FROM vectors` on this connection returns:
committed rows plus this connection's own uncommitted rows. -/
def pgFetchAll (c : PGConn) : List Row :=
  c.committed ++ c.pending

/-- `PostgreSQLSimilaritySearch.index_vector(vector, metadata)`:
validate; then execute the parameterized insert and commit, rolling back
and raising `RuntimeError` (spec: `StorageError`) if the execute or the
commit raises.  Returns the outcome together with the connection state. -/
def pgIndexVector (execErr commitErr : Option String) (vector metadata : PyVal)
    (c : PGConn) : Except PyErr Unit × PGConn :=
  if !(vectorOk vector) then
    (.error (.valueError "Vector must be a list of numbers."), c)
  else if !(metadataOk metadata) then
    (.error (.valueError "Metadata must be a dictionary with an 'id' key."), c)
  else
    match execErr with
    | some e => (.error (.runtimeError ("Failed to index vector: " ++ e)), pgRollback c)
    | Option.none =>
      let c1 := pgExecuteInsert c (metaId metadata, vector.elems)
      match commitErr with
      | some e => (.error (.runtimeError ("Failed to index vector: " ++ e)), pgRollback c1)
      | Option.none => (.ok (), pgCommit c1)

/-- One element of a `index_vectors` batch for the relational backend: the
injected failure behaviour of the external driver for this element's call,
plus the `(vector, metadata)` pair. -/
abbrev PGBatchElem : Type := (Option String × Option String) × PyVal × PyVal

/-- `PostgreSQLSimilaritySearch.index_vectors(vectors_metadata)`:
`for vector, metadata in vectors_metadata: self.index_vector(vector, metadata)`;
a raised exception aborts the loop. -/
def pgIndexVectors (batch : List PGBatchElem) (c : PGConn) :
    Except PyErr Unit × PGConn :=
  match batch with
  | [] => (.ok (), c)
  | e :: rest =>
    match pgIndexVector e.1.1 e.1.2 e.2.1 e.2.2 c with
    | (.ok _, c1) => pgIndexVectors rest c1
    | (.error err, c1) => (.error err, c1)

/-- `PostgreSQLSimilaritySearch.query_similar(vector, top_k)`:
validate; fetch all rows (raising `RuntimeError` if the scan fails); score
each row by cosine similarity to the query; stable-sort descending by
score; return the first `top_k`. -/
noncomputable def pgQuerySimilar (fetchErr : Option String) (vector : PyVal)
    (top_k : ℤ) (c : PGConn) : Except PyErr (List (PyVal × ℝ)) :=
  if !(vectorOk vector) then
    .error (.valueError "Vector must be a list of numbers.")
  else if vector.elems.length = 0 then
    .error (.valueError "Vector must not be empty.")
  else
    match fetchErr with
    | some e => .error (.runtimeError ("Failed to query vectors: " ++ e))
    | Option.none =>
      .ok (pyTake top_k (sortByScoreDesc (scoreRows vector (pgFetchAll c))))

/-! ## Wide-column backend (`AstraDBSimilaritySearch`)

The Cassandra session is modelled by the list of stored rows.  There is no
transaction: a successful `execute` of the insert appends the row, a failing
one leaves the store unchanged.  The ANN read
(`SELECT ... ORDER BY vector ANN OF ... LIMIT top_k`) is executed by the
external store; its response is passed in as the `fetched` row list, about
which theorems assume only what the store guarantees (e.g. that it returns
stored rows). -/

structure AstraSession where
  rows : List Row

/-- `AstraDBSimilaritySearch.index_vector(vector, metadata)`: validate, then
execute the parameterized insert, wrapping any execution failure in
`RuntimeError` (spec: `StorageError`). -/
def astraIndexVector (execErr : Option String) (vector metadata : PyVal)
    (s : AstraSession) : Except PyErr Unit × AstraSession :=
  if !(vectorOk vector) then
    (.error (.valueError "Vector must be a list of numbers."), s)
  else if !(metadataOk metadata) then
    (.error (.valueError "Metadata must be a dictionary with an 'id' key."), s)
  else
    match execErr with
    | some e => (.error (.runtimeError ("Failed to index vector: " ++ e)), s)
    | Option.none => (.ok (), ⟨s.rows ++ [(metaId metadata, vector.elems)]⟩)

/-- One element of an `index_vectors` batch for the wide-column backend. -/
abbrev AstraBatchElem : Type := Option String × PyVal × PyVal

/-- `AstraDBSimilaritySearch.index_vectors(vectors_metadata)`. -/
def astraIndexVectors (batch : List AstraBatchElem) (s : AstraSession) :
    Except PyErr Unit × AstraSession :=
  match batch with
  | [] => (.ok (), s)
  | e :: rest =>
    match astraIndexVector e.1 e.2.1 e.2.2 s with
    | (.ok _, s1) => astraIndexVectors rest s1
    | (.error err, s1) => (.error err, s1)

/-- `AstraDBSimilaritySearch.query_similar(vector, top_k)`: validate; then
the store's ANN query returns `fetched`; score each fetched row by cosine
similarity to the query; stable-sort descending; return the first `top_k`. -/
noncomputable def astraQuerySimilar (vector : PyVal) (top_k : ℤ)
    (fetched : List Row) : Except PyErr (List (PyVal × ℝ)) :=
  if !(vectorOk vector) then
    .error (.valueError "Vector must be a list of numbers.")
  else if vector.elems.length = 0 then
    .error (.valueError "Vector must not be empty.")
  else
    .ok (pyTake top_k (sortByScoreDesc (scoreRows vector fetched)))

/-! ## Embedder collaborator (`OpenAIEmbedder.embed_text`)

The whole body of `embed_text` is a `try` around the external API call and
the extraction `response["data"][0]["embedding"]`; any exception from
either is caught, logged, and turned into the empty list `[]`.  The external
call's outcome is passed in as an `Except`. -/

/-- `x[i]` on a Python list, `Option.none` when the subscript raises. -/
def pyIndex (v : PyVal) (i : ℕ) : Option PyVal :=
  match v with
  | .list xs => xs.get? i
  | _ => Option.none

/-- `OpenAIEmbedder.embed_text(text)`: on any exception from the API call or
from extracting `response["data"][0]["embedding"]`, return `[]`. -/
def embed_text (callResult : Except String PyVal) : PyVal :=
  match callResult with
  | .error _ => .list []
  | .ok response =>
    match ((pyDictGet response "data").bind (fun d => pyIndex d 0)).bind
        (fun r => pyDictGet r "embedding") with
    | some v => v
    | Option.none => .list []

/-! ## Batch-element views used to state the batch claims -/

/-- Whether a relational-backend batch element will index successfully: its
inputs validate and the driver's execute and commit both succeed. -/
def pgElemOk (e : PGBatchElem) : Bool :=
  vectorOk e.2.1 && metadataOk e.2.2 && e.1.1.isNone && e.1.2.isNone

/-- The row a successfully indexed relational-backend batch element persists. -/
def pgRowOf (e : PGBatchElem) : Row := (metaId e.2.2, e.2.1.elems)

/-- Whether a wide-column-backend batch element will index successfully. -/
def astraElemOk (e : AstraBatchElem) : Bool :=
  vectorOk e.2.1 && metadataOk e.2.2 && e.1.isNone

/-- The row a successfully indexed wide-column-backend batch element
persists. -/
def astraRowOf (e : AstraBatchElem) : Row := (metaId e.2.2, e.2.1.elems)

/-! ## Theorems -/

/-- C9: if the underlying embedding call fails with any exception,
`embed_text` returns the empty vector `[]` rather than propagating the
error; `embed_text` never raises (it is a total function into `PyVal`,
with every failure path of the `try` block producing `[]`). -/
theorem claim_C9 (callResult : Except String PyVal) (e : String)
    (h : callResult = .error e) : embed_text callResult = .list [] := by
  subst h; rfl

theorem claim_C9_witness : embed_text (.error "connection reset") = .list [] :=
  claim_C9 (.error "connection reset") "connection reset" rfl

/-- C1 counterexample: the claim says `index_vector` raises
`ValidationError` for an empty vector and for a vector containing a
non-finite number; on both backends the code accepts the empty vector
`[]` and the vector `[inf]` (no error is raised). -/
theorem claim_C1_counterexample :
    raisedValueError (pgIndexVector Option.none Option.none (.list [])
        (.dict [("id", .str "x")]) ⟨[], []⟩).1 = false ∧
    raisedValueError (astraIndexVector Option.none (.list [])
        (.dict [("id", .str "x")]) ⟨[]⟩).1 = false ∧
    raisedValueError (pgIndexVector Option.none Option.none (.list [.float .inf])
        (.dict [("id", .str "x")]) ⟨[], []⟩).1 = false ∧
    raisedValueError (pgIndexVector Option.none Option.none
        (.list [.float .nan]) (.dict [("id", .str "x")]) ⟨[], []⟩).1 = false :=
  ⟨rfl, rfl, rfl, rfl⟩

/-- C1 (amended): for every backend, `index_vector(vector, metadata)` raises
`ValidationError` if and only if the vector is not a list whose elements are
all numbers (`int`/`float` — emptiness and finiteness are not checked, so
the empty vector and non-finite floats are accepted), or the metadata is
not a dict containing an `'id'` key; in particular it raises for a non-list
vector, for a vector containing a non-numeric element, and for metadata
without `'id'`. -/
theorem claim_C1_amended (execErr commitErr : Option String) (v m : PyVal)
    (c : PGConn) (s : AstraSession) :
    raisedValueError (pgIndexVector execErr commitErr v m c).1
      = (!vectorOk v || !metadataOk m) ∧
    raisedValueError (astraIndexVector execErr v m s).1
      = (!vectorOk v || !metadataOk m) := by
  constructor <;>
    · simp only [pgIndexVector, astraIndexVector]
      cases hv : vectorOk v <;> cases hm : metadataOk m <;>
        simp [hv, hm, raisedValueError] <;>
        cases execErr <;> cases commitErr <;> simp [raisedValueError]

/-- C8: on both backends, `index_vector` consumes only the `'id'` field of
the metadata: two metadata dicts whose `'id'` lookups agree produce
identical outcomes and identical stored states. -/
theorem claim_C8 (execErr commitErr : Option String) (v m1 m2 x : PyVal)
    (c : PGConn) (s : AstraSession)
    (h1 : pyDictGet m1 "id" = some x) (h2 : pyDictGet m2 "id" = some x) :
    pgIndexVector execErr commitErr v m1 c = pgIndexVector execErr commitErr v m2 c ∧
    astraIndexVector execErr v m1 s = astraIndexVector execErr v m2 s := by
  simp only [pgIndexVector, astraIndexVector, metadataOk, metaId, h1, h2]
  constructor <;> trivial

theorem claim_C8_witness :
    pgIndexVector Option.none Option.none (.list [.int 1])
        (.dict [("id", .str "a"), ("tag", .int 5)]) ⟨[], []⟩
      = pgIndexVector Option.none Option.none (.list [.int 1])
        (.dict [("id", .str "a")]) ⟨[], []⟩ ∧
    astraIndexVector Option.none (.list [.int 1])
        (.dict [("id", .str "a"), ("tag", .int 5)]) ⟨[]⟩
      = astraIndexVector Option.none (.list [.int 1])
        (.dict [("id", .str "a")]) ⟨[]⟩ :=
  claim_C8 Option.none Option.none (.list [.int 1])
    (.dict [("id", .str "a"), ("tag", .int 5)]) (.dict [("id", .str "a")])
    (.str "a") ⟨[], []⟩ ⟨[]⟩ rfl rfl

/-- The stable descending sort is a permutation, so it preserves length. -/
theorem length_sortByScoreDesc {α : Type} (l : List (α × ℝ)) :
    (sortByScoreDesc l).length = l.length :=
  (List.perm_insertionSort _ l).length_eq

/-- Python slicing never lengthens a list. -/
theorem length_pyTake_le {α : Type} (k : ℤ) (l : List α) :
    (pyTake k l).length ≤ l.length := by
  unfold pyTake
  split <;> · rw [List.length_take]; exact min_le_right _ _

/-- Scoring produces one scored result per candidate row. -/
theorem length_scoreRows (v : PyVal) (rows : List Row) :
    (scoreRows v rows).length = rows.length := by
  simp [scoreRows]

/-- C6: on both backends, `query_similar(vector, top_k)` raises
`ValidationError` exactly when the vector fails the list-of-numbers check
or is empty; and when validation fails the outcome is produced before any
I/O — it is the same whatever the stored rows are and whatever the store
would do (including a store whose fetch would fail). -/
theorem claim_C6 (fetchErr fetchErr' : Option String) (v : PyVal) (top_k : ℤ)
    (c c' : PGConn) (fetched fetched' : List Row) :
    raisedValueError (pgQuerySimilar fetchErr v top_k c)
      = (!vectorOk v || decide (v.elems.length = 0)) ∧
    raisedValueError (astraQuerySimilar v top_k fetched)
      = (!vectorOk v || decide (v.elems.length = 0)) ∧
    ((!vectorOk v || decide (v.elems.length = 0)) = true →
      pgQuerySimilar fetchErr v top_k c = pgQuerySimilar fetchErr' v top_k c' ∧
      astraQuerySimilar v top_k fetched = astraQuerySimilar v top_k fetched') := by
  refine ⟨?_, ?_, ?_⟩
  · simp only [pgQuerySimilar]
    cases hv : vectorOk v
    · simp [raisedValueError]
    · by_cases hl : v.elems.length = 0
      · simp [hl, raisedValueError]
      · cases fetchErr <;> simp [hl, raisedValueError]
  · simp only [astraQuerySimilar]
    cases hv : vectorOk v
    · simp [raisedValueError]
    · by_cases hl : v.elems.length = 0 <;> simp [hl, raisedValueError]
  · intro h
    cases hv : vectorOk v
    · constructor <;> simp [pgQuerySimilar, astraQuerySimilar, hv]
    · have hl : v.elems.length = 0 := by rw [hv] at h; simpa using h
      constructor <;> simp [pgQuerySimilar, astraQuerySimilar, hv, hl]

theorem claim_C6_witness :
    raisedValueError (pgQuerySimilar Option.none (.str "not a list") 1 ⟨[], []⟩)
      = true ∧
    pgQuerySimilar Option.none (.str "not a list") 1 ⟨[], []⟩
      = pgQuerySimilar (some "db down") (.str "not a list") 1
          ⟨[(.str "A", [.int 1])], []⟩ ∧
    astraQuerySimilar (.str "not a list") 1 []
      = astraQuerySimilar (.str "not a list") 1 [(.str "A", [.int 1])] := by
  have h := claim_C6 Option.none (some "db down") (.str "not a list") 1
    ⟨[], []⟩ ⟨[(.str "A", [.int 1])], []⟩ [] [(.str "A", [.int 1])]
  exact ⟨h.1.trans rfl, (h.2.2 rfl).1, (h.2.2 rfl).2⟩

/-- C7: on both backends, for a valid non-empty numeric query vector and any
`top_k ≤ 0`, `query_similar` succeeds (it never raises for the non-positive
`top_k` alone) and returns a sequence no longer than the number of stored
records (for the wide-column backend: no longer than any stored-row count
that bounds what the store returned). -/
theorem claim_C7 (v : PyVal) (top_k : ℤ) (c : PGConn) (stored fetched : List Row)
    (hv : vectorOk v = true) (hne : v.elems.length ≠ 0) (hk : top_k ≤ 0)
    (hf : fetched.length ≤ stored.length) :
    (∃ out, pgQuerySimilar Option.none v top_k c = .ok out ∧
        out.length ≤ (pgFetchAll c).length) ∧
    (∃ out, astraQuerySimilar v top_k fetched = .ok out ∧
        out.length ≤ stored.length) := by
  have hpg : pgQuerySimilar Option.none v top_k c
      = .ok (pyTake top_k (sortByScoreDesc (scoreRows v (pgFetchAll c)))) := by
    simp [pgQuerySimilar, hv, hne]
  have has : astraQuerySimilar v top_k fetched
      = .ok (pyTake top_k (sortByScoreDesc (scoreRows v fetched))) := by
    simp [astraQuerySimilar, hv, hne]
  refine ⟨⟨_, hpg, ?_⟩, ⟨_, has, ?_⟩⟩
  · calc (pyTake top_k (sortByScoreDesc (scoreRows v (pgFetchAll c)))).length
        ≤ (sortByScoreDesc (scoreRows v (pgFetchAll c))).length :=
          length_pyTake_le _ _
      _ = (pgFetchAll c).length := by
          rw [length_sortByScoreDesc, length_scoreRows]
  · calc (pyTake top_k (sortByScoreDesc (scoreRows v fetched))).length
        ≤ (sortByScoreDesc (scoreRows v fetched)).length := length_pyTake_le _ _
      _ = fetched.length := by rw [length_sortByScoreDesc, length_scoreRows]
      _ ≤ stored.length := hf

theorem claim_C7_witness :
    (∃ out, pgQuerySimilar Option.none (.list [.int 1]) 0
        ⟨[(.str "A", [.int 2])], []⟩ = .ok out ∧
        out.length ≤ (pgFetchAll ⟨[(.str "A", [.int 2])], []⟩).length) ∧
    (∃ out, astraQuerySimilar (.list [.int 1]) (-1) [(.str "A", [.int 2])]
        = .ok out ∧ out.length ≤ ([(.str "A", [.int 2])] : List Row).length) :=
  claim_C7 (.list [.int 1]) 0 ⟨[(.str "A", [.int 2])], []⟩
    [(.str "A", [.int 2])] [(.str "A", [.int 2])] rfl (by decide) (by decide)
    (by decide)

/-- C4: for the relational backend, with valid inputs and a clean
transaction, a failure of the insert's execute or of the commit makes
`index_vector` roll back and raise `StorageError`, leaving the stored
state unchanged (a subsequent read fetches exactly what it fetched
before); with no failure the insert is committed. -/
theorem claim_C4 (execErr commitErr : Option String) (v m : PyVal) (c : PGConn)
    (hv : vectorOk v = true) (hm : metadataOk m = true)
    (hclean : c.pending = []) :
    (execErr.isSome ∨ commitErr.isSome →
      ∃ msg, pgIndexVector execErr commitErr v m c
          = (.error (.runtimeError msg), ⟨c.committed, []⟩) ∧
        pgFetchAll (pgIndexVector execErr commitErr v m c).2 = pgFetchAll c) ∧
    (execErr = Option.none → commitErr = Option.none →
      pgIndexVector execErr commitErr v m c
        = (.ok (), ⟨c.committed ++ [(metaId m, v.elems)], []⟩)) := by
  constructor
  · intro hfail
    cases execErr with
    | some e =>
      refine ⟨"Failed to index vector: " ++ e, ?_, ?_⟩ <;>
        simp [pgIndexVector, hv, hm, pgRollback, pgFetchAll, hclean]
    | none =>
      cases commitErr with
      | some e =>
        refine ⟨"Failed to index vector: " ++ e, ?_, ?_⟩ <;>
          simp [pgIndexVector, hv, hm, pgRollback, pgExecuteInsert,
            pgFetchAll, hclean]
      | none => simp at hfail
  · intro he hc
    subst he; subst hc
    simp [pgIndexVector, hv, hm, pgExecuteInsert, pgCommit, hclean]

theorem claim_C4_witness :
    (∃ msg, pgIndexVector (some "disk full") Option.none (.list [.int 1])
          (.dict [("id", .str "x")]) ⟨[(.str "A", [.int 2])], []⟩
        = (.error (.runtimeError msg), ⟨[(.str "A", [.int 2])], []⟩) ∧
      pgFetchAll (pgIndexVector (some "disk full") Option.none (.list [.int 1])
          (.dict [("id", .str "x")]) ⟨[(.str "A", [.int 2])], []⟩).2
        = pgFetchAll ⟨[(.str "A", [.int 2])], []⟩) ∧
    pgIndexVector Option.none Option.none (.list [.int 1])
        (.dict [("id", .str "x")]) ⟨[(.str "A", [.int 2])], []⟩
      = (.ok (), ⟨[(.str "A", [.int 2]), (.str "x", [.int 1])], []⟩) :=
  ⟨(claim_C4 (some "disk full") Option.none (.list [.int 1])
      (.dict [("id", .str "x")]) ⟨[(.str "A", [.int 2])], []⟩ rfl rfl rfl).1
      (Or.inl rfl),
   (claim_C4 Option.none Option.none (.list [.int 1])
      (.dict [("id", .str "x")]) ⟨[(.str "A", [.int 2])], []⟩ rfl rfl rfl).2
      rfl rfl⟩

/-- A relational-backend element that passes validation and whose driver
calls succeed indexes one row and leaves a clean transaction. -/
theorem pgIndexVector_of_elemOk (e : PGBatchElem) (c : PGConn)
    (h : pgElemOk e = true) :
    pgIndexVector e.1.1 e.1.2 e.2.1 e.2.2 c
      = (.ok (), ⟨c.committed ++ c.pending ++ [pgRowOf e], []⟩) := by
  simp only [pgElemOk, Bool.and_eq_true, Option.isNone_iff_eq_none] at h
  obtain ⟨⟨⟨hv, hm⟩, h1⟩, h2⟩ := h
  rw [h1, h2]
  simp [pgIndexVector, hv, hm, pgExecuteInsert, pgCommit, pgRowOf]

/-- A failing relational-backend element produces an error (a validation
failure or a wrapped storage failure)... -/
theorem pgIndexVector_err_of_not_elemOk (e : PGBatchElem) (c : PGConn)
    (h : pgElemOk e = false) :
    ∃ err, (pgIndexVector e.1.1 e.1.2 e.2.1 e.2.2 c).1 = .error err := by
  simp only [pgIndexVector]
  cases hv : vectorOk e.2.1
  · exact ⟨_, rfl⟩
  · cases hm : metadataOk e.2.2
    · simp
    · cases h1 : e.1.1 with
      | some msg => simp
      | none =>
        cases h2 : e.1.2 with
        | some msg => simp
        | none => rw [pgElemOk, hv, hm, h1, h2] at h; simp at h

/-- Moreover a failing relational-backend element, starting from a clean
transaction, leaves the committed rows
unchanged and the transaction clean (validation failures touch nothing;
storage failures roll back). -/
theorem pgIndexVector_snd_of_not_elemOk (e : PGBatchElem) (c : PGConn)
    (h : pgElemOk e = false) (hclean : c.pending = []) :
    (pgIndexVector e.1.1 e.1.2 e.2.1 e.2.2 c).2 = ⟨c.committed, []⟩ := by
  obtain ⟨committed, pending⟩ := c
  subst hclean
  simp only [pgIndexVector]
  cases hv : vectorOk e.2.1
  · simp
  · cases hm : metadataOk e.2.2
    · simp
    · cases h1 : e.1.1 with
      | some msg => simp [pgRollback]
      | none =>
        cases h2 : e.1.2 with
        | some msg => simp [pgRollback, pgExecuteInsert]
        | none => rw [pgElemOk, hv, hm, h1, h2] at h; simp at h

/-- The outcome (raised error or success) of `index_vector` does not depend
on the connection state, only on the inputs and the driver's behaviour. -/
theorem pgIndexVector_fst_const (f1 f2 : Option String) (v m : PyVal)
    (c c' : PGConn) :
    (pgIndexVector f1 f2 v m c).1 = (pgIndexVector f1 f2 v m c').1 := by
  simp only [pgIndexVector]
  cases hv : vectorOk v
  · simp
  · cases hm : metadataOk m
    · simp
    · cases f1 <;> cases f2 <;> simp

/-- Running a batch whose prefix consists of succeeding elements first
commits the prefix rows in order, then continues with the rest. -/
theorem pgIndexVectors_append_ok (pre : List PGBatchElem) :
    ∀ (rest : List PGBatchElem) (c : PGConn), c.pending = [] →
      (∀ e ∈ pre, pgElemOk e = true) →
      pgIndexVectors (pre ++ rest) c
        = pgIndexVectors rest ⟨c.committed ++ pre.map pgRowOf, []⟩ := by
  induction pre with
  | nil =>
    intro rest c hclean hpre
    obtain ⟨committed, pending⟩ := c
    subst hclean
    simp
  | cons e pre ih =>
    intro rest c hclean hpre
    simp only [List.cons_append, pgIndexVectors]
    rw [pgIndexVector_of_elemOk e c (hpre e (by simp))]
    show pgIndexVectors (pre ++ rest) ⟨c.committed ++ c.pending ++ [pgRowOf e], []⟩
        = pgIndexVectors rest ⟨c.committed ++ List.map pgRowOf (e :: pre), []⟩
    rw [ih rest ⟨c.committed ++ c.pending ++ [pgRowOf e], []⟩ rfl
      (fun x hx => hpre x (by simp [hx]))]
    simp [hclean]

/-- Wide-column analogue of `pgIndexVector_of_elemOk`. -/
theorem astraIndexVector_of_elemOk (e : AstraBatchElem) (s : AstraSession)
    (h : astraElemOk e = true) :
    astraIndexVector e.1 e.2.1 e.2.2 s = (.ok (), ⟨s.rows ++ [astraRowOf e]⟩) := by
  simp only [astraElemOk, Bool.and_eq_true, Option.isNone_iff_eq_none] at h
  obtain ⟨⟨hv, hm⟩, h1⟩ := h
  rw [h1]
  simp [astraIndexVector, hv, hm, astraRowOf]

/-- A failing wide-column element produces an error... -/
theorem astraIndexVector_err_of_not_elemOk (e : AstraBatchElem)
    (s : AstraSession) (h : astraElemOk e = false) :
    ∃ err, (astraIndexVector e.1 e.2.1 e.2.2 s).1 = .error err := by
  simp only [astraIndexVector]
  cases hv : vectorOk e.2.1
  · exact ⟨_, rfl⟩
  · cases hm : metadataOk e.2.2
    · simp
    · cases h1 : e.1 with
      | some msg => simp
      | none => rw [astraElemOk, hv, hm, h1] at h; simp at h

/-- Moreover a failing wide-column element leaves the stored rows
unchanged. -/
theorem astraIndexVector_snd_of_not_elemOk (e : AstraBatchElem)
    (s : AstraSession) (h : astraElemOk e = false) :
    (astraIndexVector e.1 e.2.1 e.2.2 s).2 = s := by
  simp only [astraIndexVector]
  cases hv : vectorOk e.2.1
  · simp
  · cases hm : metadataOk e.2.2
    · simp
    · cases h1 : e.1 with
      | some msg => simp
      | none => rw [astraElemOk, hv, hm, h1] at h; simp at h

/-- The outcome of the wide-column `index_vector` does not depend on the
stored rows. -/
theorem astraIndexVector_fst_const (f : Option String) (v m : PyVal)
    (s s' : AstraSession) :
    (astraIndexVector f v m s).1 = (astraIndexVector f v m s').1 := by
  simp only [astraIndexVector]
  cases hv : vectorOk v
  · simp
  · cases hm : metadataOk m
    · simp
    · cases f <;> simp

/-- Wide-column analogue of `pgIndexVectors_append_ok`. -/
theorem astraIndexVectors_append_ok (pre : List AstraBatchElem) :
    ∀ (rest : List AstraBatchElem) (s : AstraSession),
      (∀ e ∈ pre, astraElemOk e = true) →
      astraIndexVectors (pre ++ rest) s
        = astraIndexVectors rest ⟨s.rows ++ pre.map astraRowOf⟩ := by
  induction pre with
  | nil => intro rest s hpre; simp
  | cons e pre ih =>
    intro rest s hpre
    simp only [List.cons_append, astraIndexVectors]
    rw [astraIndexVector_of_elemOk e s (hpre e (by simp))]
    show astraIndexVectors (pre ++ rest) ⟨s.rows ++ [astraRowOf e]⟩
        = astraIndexVectors rest ⟨s.rows ++ List.map astraRowOf (e :: pre)⟩
    rw [ih rest ⟨s.rows ++ [astraRowOf e]⟩ (fun x hx => hpre x (by simp [hx]))]
    simp

/-- Running a batch whose head fails stops at the head: its error is the
result, the committed rows are unchanged and the transaction is clean. -/
theorem pgIndexVectors_cons_err (e : PGBatchElem) (rest : List PGBatchElem)
    (c : PGConn) (h : pgElemOk e = false) (hclean : c.pending = []) :
    pgIndexVectors (e :: rest) c
      = ((pgIndexVector e.1.1 e.1.2 e.2.1 e.2.2 c).1, ⟨c.committed, []⟩) := by
  simp only [pgIndexVectors]
  obtain ⟨err, herr⟩ := pgIndexVector_err_of_not_elemOk e c h
  have hsnd := pgIndexVector_snd_of_not_elemOk e c h hclean
  rcases hx : pgIndexVector e.1.1 e.1.2 e.2.1 e.2.2 c with ⟨r, c2⟩
  rw [hx] at herr hsnd
  simp only at herr hsnd
  subst herr
  simp [hsnd]

/-- Wide-column analogue of `pgIndexVectors_cons_err`. -/
theorem astraIndexVectors_cons_err (e : AstraBatchElem)
    (rest : List AstraBatchElem) (s : AstraSession)
    (h : astraElemOk e = false) :
    astraIndexVectors (e :: rest) s
      = ((astraIndexVector e.1 e.2.1 e.2.2 s).1, s) := by
  simp only [astraIndexVectors]
  obtain ⟨err, herr⟩ := astraIndexVector_err_of_not_elemOk e s h
  have hsnd := astraIndexVector_snd_of_not_elemOk e s h
  rcases hx : astraIndexVector e.1 e.2.1 e.2.2 s with ⟨r, s2⟩
  rw [hx] at herr hsnd
  simp only at herr hsnd
  subst herr
  simp [hsnd]

/-- C5: on both backends, `index_vectors` applies `index_vector` in batch
order and stops at the first failing element: the rows of the succeeding
prefix remain persisted, the failing element's own error (whatever it would
raise on its own) is the outcome, and the elements after the failure are
never attempted (the result is the same for any suffix). -/
theorem claim_C5 (pre : List PGBatchElem) (bad : PGBatchElem)
    (post post' : List PGBatchElem) (c : PGConn)
    (preA : List AstraBatchElem) (badA : AstraBatchElem)
    (postA postA' : List AstraBatchElem) (s : AstraSession)
    (hpre : ∀ e ∈ pre, pgElemOk e = true) (hbad : pgElemOk bad = false)
    (hclean : c.pending = [])
    (hpreA : ∀ e ∈ preA, astraElemOk e = true)
    (hbadA : astraElemOk badA = false) :
    (∃ err, pgIndexVectors (pre ++ bad :: post) c
        = (.error err, ⟨c.committed ++ pre.map pgRowOf, []⟩) ∧
      (pgIndexVector bad.1.1 bad.1.2 bad.2.1 bad.2.2 c).1 = .error err) ∧
    pgIndexVectors (pre ++ bad :: post) c
      = pgIndexVectors (pre ++ bad :: post') c ∧
    (∃ err, astraIndexVectors (preA ++ badA :: postA) s
        = (.error err, ⟨s.rows ++ preA.map astraRowOf⟩) ∧
      (astraIndexVector badA.1 badA.2.1 badA.2.2 s).1 = .error err) ∧
    astraIndexVectors (preA ++ badA :: postA) s
      = astraIndexVectors (preA ++ badA :: postA') s := by
  obtain ⟨err, herr⟩ := pgIndexVector_err_of_not_elemOk bad c hbad
  obtain ⟨errA, herrA⟩ := astraIndexVector_err_of_not_elemOk badA s hbadA
  have h1 : ∀ post0 : List PGBatchElem,
      pgIndexVectors (pre ++ bad :: post0) c
        = (.error err, ⟨c.committed ++ pre.map pgRowOf, []⟩) := by
    intro post0
    rw [pgIndexVectors_append_ok pre (bad :: post0) c hclean hpre,
      pgIndexVectors_cons_err bad post0 ⟨c.committed ++ pre.map pgRowOf, []⟩
        hbad rfl,
      pgIndexVector_fst_const bad.1.1 bad.1.2 bad.2.1 bad.2.2
        ⟨c.committed ++ pre.map pgRowOf, []⟩ c, herr]
  have h2 : ∀ post0 : List AstraBatchElem,
      astraIndexVectors (preA ++ badA :: post0) s
        = (.error errA, ⟨s.rows ++ preA.map astraRowOf⟩) := by
    intro post0
    rw [astraIndexVectors_append_ok preA (badA :: post0) s hpreA,
      astraIndexVectors_cons_err badA post0 ⟨s.rows ++ preA.map astraRowOf⟩
        hbadA,
      astraIndexVector_fst_const badA.1 badA.2.1 badA.2.2
        ⟨s.rows ++ preA.map astraRowOf⟩ s, herrA]
  exact ⟨⟨err, h1 post, herr⟩, (h1 post).trans (h1 post').symm,
    ⟨errA, h2 postA, herrA⟩, (h2 postA).trans (h2 postA').symm⟩

theorem claim_C5_witness :
    (∃ err, pgIndexVectors
        [((Option.none, Option.none), .list [.int 1], .dict [("id", .str "a")]),
         ((Option.none, Option.none), .list [.int 2], .dict [("id", .str "b")]),
         ((Option.none, Option.none),
           .list [.float (.finite (1/10)), .float (.finite (2/10)), .str "a"],
           .dict [("id", .str "c")]),
         ((Option.none, Option.none), .list [.int 4], .dict [("id", .str "d")])]
        ⟨[], []⟩
        = (.error err, ⟨[(.str "a", [.int 1]), (.str "b", [.int 2])], []⟩) ∧
      (pgIndexVector Option.none Option.none
          (.list [.float (.finite (1/10)), .float (.finite (2/10)), .str "a"])
          (.dict [("id", .str "c")]) ⟨[], []⟩).1 = .error err) ∧
    pgIndexVectors
        [((Option.none, Option.none), .list [.int 1], .dict [("id", .str "a")]),
         ((Option.none, Option.none), .list [.int 2], .dict [("id", .str "b")]),
         ((Option.none, Option.none),
           .list [.float (.finite (1/10)), .float (.finite (2/10)), .str "a"],
           .dict [("id", .str "c")]),
         ((Option.none, Option.none), .list [.int 4], .dict [("id", .str "d")])]
        ⟨[], []⟩
      = pgIndexVectors
        [((Option.none, Option.none), .list [.int 1], .dict [("id", .str "a")]),
         ((Option.none, Option.none), .list [.int 2], .dict [("id", .str "b")]),
         ((Option.none, Option.none),
           .list [.float (.finite (1/10)), .float (.finite (2/10)), .str "a"],
           .dict [("id", .str "c")])]
        ⟨[], []⟩ ∧
    (∃ err, astraIndexVectors
        [(Option.none, .list [.int 1], .dict [("id", .str "a")]),
         (Option.none, .list [.int 2], .dict [("id", .str "b")]),
         (Option.none,
           .list [.float (.finite (1/10)), .float (.finite (2/10)), .str "a"],
           .dict [("id", .str "c")]),
         (Option.none, .list [.int 4], .dict [("id", .str "d")])]
        ⟨[]⟩
        = (.error err, ⟨[(.str "a", [.int 1]), (.str "b", [.int 2])]⟩) ∧
      (astraIndexVector Option.none
          (.list [.float (.finite (1/10)), .float (.finite (2/10)), .str "a"])
          (.dict [("id", .str "c")]) ⟨[]⟩).1 = .error err) ∧
    astraIndexVectors
        [(Option.none, .list [.int 1], .dict [("id", .str "a")]),
         (Option.none, .list [.int 2], .dict [("id", .str "b")]),
         (Option.none,
           .list [.float (.finite (1/10)), .float (.finite (2/10)), .str "a"],
           .dict [("id", .str "c")]),
         (Option.none, .list [.int 4], .dict [("id", .str "d")])]
        ⟨[]⟩
      = astraIndexVectors
        [(Option.none, .list [.int 1], .dict [("id", .str "a")]),
         (Option.none, .list [.int 2], .dict [("id", .str "b")]),
         (Option.none,
           .list [.float (.finite (1/10)), .float (.finite (2/10)), .str "a"],
           .dict [("id", .str "c")])]
        ⟨[]⟩ :=
  claim_C5
    [((Option.none, Option.none), .list [.int 1], .dict [("id", .str "a")]),
     ((Option.none, Option.none), .list [.int 2], .dict [("id", .str "b")])]
    ((Option.none, Option.none),
      .list [.float (.finite (1/10)), .float (.finite (2/10)), .str "a"],
      .dict [("id", .str "c")])
    [((Option.none, Option.none), .list [.int 4], .dict [("id", .str "d")])]
    [] ⟨[], []⟩
    [(Option.none, .list [.int 1], .dict [("id", .str "a")]),
     (Option.none, .list [.int 2], .dict [("id", .str "b")])]
    (Option.none,
      .list [.float (.finite (1/10)), .float (.finite (2/10)), .str "a"],
      .dict [("id", .str "c")])
    [(Option.none, .list [.int 4], .dict [("id", .str "d")])]
    [] ⟨[]⟩
    (by decide) (by decide) rfl (by decide) (by decide)

/-- The self dot product is the sum of squares of the denoted reals. -/
theorem dotProd_self_eq (xs : List PyVal) :
    dotProd xs xs = (xs.map (fun a => a.toReal * a.toReal)).sum := by
  unfold dotProd
  rw [List.zipWith_same]

theorem dotProd_self_nonneg (xs : List PyVal) : 0 ≤ dotProd xs xs := by
  rw [dotProd_self_eq]
  refine List.sum_nonneg ?_
  intro y hy
  obtain ⟨a, _, rfl⟩ := List.mem_map.mp hy
  exact mul_self_nonneg _

theorem dotProd_self_pos (xs : List PyVal) (h : ∃ x ∈ xs, x.toReal ≠ 0) :
    0 < dotProd xs xs := by
  obtain ⟨x, hmem, hx⟩ := h
  rw [dotProd_self_eq]
  induction xs with
  | nil => cases hmem
  | cons y ys ih =>
    rw [List.map_cons, List.sum_cons]
    rcases List.mem_cons.mp hmem with h1 | h1
    · subst h1
      refine add_pos_of_pos_of_nonneg (mul_self_pos.mpr hx) ?_
      refine List.sum_nonneg ?_
      intro z hz
      obtain ⟨a, _, rfl⟩ := List.mem_map.mp hz
      exact mul_self_nonneg _
    · exact add_pos_of_nonneg_of_pos (mul_self_nonneg _) (ih h1)

/-- Cosine self-similarity is exactly 1 for a vector whose denotation is
not the zero vector. -/
theorem cosine_similarity_self (xs : List PyVal)
    (h : ∃ x ∈ xs, x.toReal ≠ 0) : cosine_similarity xs xs = 1 := by
  have hpos := dotProd_self_pos xs h
  unfold cosine_similarity pyNorm
  rw [Real.mul_self_sqrt hpos.le, div_self hpos.ne']

/-- C2 counterexample: the claim quantifies over every non-empty finite
numeric vector, but for the zero vector `[0]` the self-similarity is a
division by zero (`nan` at runtime, `0` in the exact-real model), not
`1.0`, so the query after indexing does not return `[(X, 1.0)]`. -/
theorem claim_C2_counterexample :
    pgQuerySimilar Option.none (.list [.int 0]) 1
        (pgIndexVector Option.none Option.none (.list [.int 0])
          (.dict [("id", .str "X")]) ⟨[], []⟩).2
      ≠ .ok [(.str "X", 1)] ∧
    astraQuerySimilar (.list [.int 0]) 1
        (astraIndexVector Option.none (.list [.int 0])
          (.dict [("id", .str "X")]) ⟨[]⟩).2.rows
      ≠ .ok [(.str "X", 1)] := by
  have hcos : cosine_similarity [PyVal.int 0] [PyVal.int 0] = 0 := by
    unfold cosine_similarity dotProd
    simp [PyVal.toReal]
  have hidx : (pgIndexVector Option.none Option.none (.list [.int 0])
      (.dict [("id", .str "X")]) ⟨[], []⟩).2 = ⟨[(.str "X", [.int 0])], []⟩ := by
    simp [pgIndexVector, vectorOk, PyVal.isNumber, metadataOk, pyDictGet,
      metaId, PyVal.elems, pgExecuteInsert, pgCommit]
  have hidxA : (astraIndexVector Option.none (.list [.int 0])
      (.dict [("id", .str "X")]) ⟨[]⟩).2.rows = [(.str "X", [.int 0])] := by
    simp [astraIndexVector, vectorOk, PyVal.isNumber, metadataOk, pyDictGet,
      metaId, PyVal.elems]
  have hq : pgQuerySimilar Option.none (.list [.int 0]) 1
      ⟨[(.str "X", [.int 0])], []⟩ = .ok [(.str "X", (0:ℝ))] := by
    simp [pgQuerySimilar, vectorOk, PyVal.isNumber, PyVal.elems, pgFetchAll,
      scoreRows, hcos, sortByScoreDesc, pyTake]
  have hqA : astraQuerySimilar (.list [.int 0]) 1 [(.str "X", [.int 0])]
      = .ok [(.str "X", (0:ℝ))] := by
    simp [astraQuerySimilar, vectorOk, PyVal.isNumber, PyVal.elems,
      scoreRows, hcos, sortByScoreDesc, pyTake]
  rw [hidx, hidxA, hq, hqA]
  constructor <;>
    · intro hcontra
      simp only [Except.ok.injEq, List.cons.injEq, Prod.mk.injEq] at hcontra
      exact one_ne_zero hcontra.1.2.symm

/-- C2 (amended): for every non-empty finite numeric vector `v` that is not
the all-zero vector, and every identifier value `X`, on both backends
`query_similar(v, 1)` immediately after `index_vector(v, {id: X})` on an
initially empty store returns exactly `[(X, 1.0)]` — cosine self-similarity
is exactly 1 (for the all-zero vector the score is instead a division by
zero, see the counterexample). -/
theorem claim_C2_amended (v X : PyVal) (hv : vectorOk v = true)
    (hne : v.elems.length ≠ 0)
    (hfin : v.elems.all PyVal.isFiniteNumber = true)
    (hnz : ∃ x ∈ v.elems, x.toReal ≠ 0) :
    pgQuerySimilar Option.none v 1
        (pgIndexVector Option.none Option.none v (.dict [("id", X)]) ⟨[], []⟩).2
      = .ok [(X, 1)] ∧
    astraQuerySimilar v 1
        (astraIndexVector Option.none v (.dict [("id", X)]) ⟨[]⟩).2.rows
      = .ok [(X, 1)] := by
  have hm : metadataOk (.dict [("id", X)]) = true := rfl
  have hid : metaId (.dict [("id", X)]) = X := rfl
  have hcos := cosine_similarity_self v.elems hnz
  have hidx : (pgIndexVector Option.none Option.none v
      (.dict [("id", X)]) ⟨[], []⟩).2 = ⟨[(X, v.elems)], []⟩ := by
    simp [pgIndexVector, hv, hm, hid, pgExecuteInsert, pgCommit]
  have hidxA : (astraIndexVector Option.none v
      (.dict [("id", X)]) ⟨[]⟩).2.rows = [(X, v.elems)] := by
    simp [astraIndexVector, hv, hm, hid]
  rw [hidx, hidxA]
  constructor
  · simp [pgQuerySimilar, hv, hne, pgFetchAll, scoreRows, hcos,
      sortByScoreDesc, pyTake]
  · simp [astraQuerySimilar, hv, hne, scoreRows, hcos, sortByScoreDesc,
      pyTake]

theorem claim_C2_witness :
    pgQuerySimilar Option.none (.list [.int 3]) 1
        (pgIndexVector Option.none Option.none (.list [.int 3])
          (.dict [("id", .str "X")]) ⟨[], []⟩).2
      = .ok [(.str "X", 1)] ∧
    astraQuerySimilar (.list [.int 3]) 1
        (astraIndexVector Option.none (.list [.int 3])
          (.dict [("id", .str "X")]) ⟨[]⟩).2.rows
      = .ok [(.str "X", 1)] :=
  claim_C2_amended (.list [.int 3]) (.str "X") rfl (by decide) (by decide)
    ⟨.int 3, by simp [PyVal.elems], by norm_num [PyVal.toReal]⟩

/-- C3: `query_similar` scores every candidate row by cosine similarity,
sorts descending (the output is always sorted with respect to `scoreGE`),
and returns the first `top_k`.  Concretely, with stored vectors
A=[1,0], B=[0,1], C=[1,0] and query [1,0]: `top_k = 2` returns A and C tied
at similarity 1.0, and `top_k = 3` shows them ranked ahead of B at 0.0, on
both backends (wide-column shown with the store returning the three rows). -/
theorem claim_C3 :
    (∀ (α : Type) (l : List (α × ℝ)), (sortByScoreDesc l).Pairwise scoreGE) ∧
    pgQuerySimilar Option.none (.list [.int 1, .int 0]) 2
        ⟨[(.str "A", [.int 1, .int 0]), (.str "B", [.int 0, .int 1]),
          (.str "C", [.int 1, .int 0])], []⟩
      = .ok [(.str "A", 1), (.str "C", 1)] ∧
    pgQuerySimilar Option.none (.list [.int 1, .int 0]) 3
        ⟨[(.str "A", [.int 1, .int 0]), (.str "B", [.int 0, .int 1]),
          (.str "C", [.int 1, .int 0])], []⟩
      = .ok [(.str "A", 1), (.str "C", 1), (.str "B", 0)] ∧
    astraQuerySimilar (.list [.int 1, .int 0]) 2
        [(.str "A", [.int 1, .int 0]), (.str "B", [.int 0, .int 1]),
         (.str "C", [.int 1, .int 0])]
      = .ok [(.str "A", 1), (.str "C", 1)] := by
  have hAA : cosine_similarity [PyVal.int 1, PyVal.int 0]
      [PyVal.int 1, PyVal.int 0] = 1 :=
    cosine_similarity_self _ ⟨.int 1, by simp, by norm_num [PyVal.toReal]⟩
  have hAB : cosine_similarity [PyVal.int 1, PyVal.int 0]
      [PyVal.int 0, PyVal.int 1] = 0 := by
    unfold cosine_similarity dotProd
    simp [PyVal.toReal]
  have hsort : sortByScoreDesc
      [((PyVal.str "A"), (1:ℝ)), (.str "B", 0), (.str "C", 1)]
      = [(.str "A", 1), (.str "C", 1), (.str "B", 0)] := by
    norm_num [sortByScoreDesc, List.insertionSort, List.orderedInsert, scoreGE]
  refine ⟨?_, ?_, ?_, ?_⟩
  · intro α l
    letI : IsTotal (α × ℝ) scoreGE := ⟨fun a b => le_total b.2 a.2⟩
    letI : IsTrans (α × ℝ) scoreGE := ⟨fun a b c hab hbc => le_trans hbc hab⟩
    exact List.sorted_insertionSort scoreGE l
  · simp [pgQuerySimilar, vectorOk, PyVal.isNumber, PyVal.elems, pgFetchAll,
      scoreRows, hAA, hAB, hsort, pyTake]
  · simp [pgQuerySimilar, vectorOk, PyVal.isNumber, PyVal.elems, pgFetchAll,
      scoreRows, hAA, hAB, hsort, pyTake]
  · simp [astraQuerySimilar, vectorOk, PyVal.isNumber, PyVal.elems,
      scoreRows, hAA, hAB, hsort, pyTake]

/-- `orderedInsert scoreGE` passes over an entry only when that entry's
score is strictly larger, so the subsequence of entries carrying any fixed
score is unchanged by the insertion. -/
theorem filter_orderedInsert {α : Type} (c : ℝ) (x : α × ℝ)
    (l : List (α × ℝ)) :
    (List.orderedInsert scoreGE x l).filter (fun p => decide (p.2 = c))
      = (x :: l).filter (fun p => decide (p.2 = c)) := by
  induction l with
  | nil => rfl
  | cons y t ih =>
    by_cases hxy : scoreGE x y
    · simp only [List.orderedInsert, if_pos hxy]
    · simp only [List.orderedInsert, if_neg hxy]
      have hlt : x.2 < y.2 := not_le.mp hxy
      by_cases hx : x.2 = c
      · have hy : y.2 ≠ c := fun hyc => hlt.ne (hx.trans hyc.symm)
        simp [List.filter_cons, hx, hy, ih]
      · simp [List.filter_cons, hx, ih]

/-- Stability of the descending sort: for any fixed score, the entries
carrying that score appear in the sorted output in exactly the order in
which they appeared in the input. -/
theorem filter_sortByScoreDesc {α : Type} (c : ℝ) (l : List (α × ℝ)) :
    (sortByScoreDesc l).filter (fun p => decide (p.2 = c))
      = l.filter (fun p => decide (p.2 = c)) := by
  induction l with
  | nil => rfl
  | cons x t ih =>
    unfold sortByScoreDesc at ih ⊢
    simp only [List.insertionSort]
    rw [filter_orderedInsert]
    simp only [List.filter_cons, ih]

/-- C10: on both backends, the descending sort inside `query_similar` is
stable — among results with equal similarity scores the output preserves
the relative order in which the rows came back from the store — and the
query returns the (truncated) stable sort of the scored rows, so repeated
queries over the same rows yield the same tie-break order. -/
theorem claim_C10 (v : PyVal) (top_k : ℤ) (c : PGConn) (fetched : List Row)
    (score : ℝ) (hv : vectorOk v = true) (hne : v.elems.length ≠ 0) :
    ((sortByScoreDesc (scoreRows v (pgFetchAll c))).filter
        (fun p => decide (p.2 = score))
      = (scoreRows v (pgFetchAll c)).filter (fun p => decide (p.2 = score))) ∧
    pgQuerySimilar Option.none v top_k c
      = .ok (pyTake top_k (sortByScoreDesc (scoreRows v (pgFetchAll c)))) ∧
    ((sortByScoreDesc (scoreRows v fetched)).filter
        (fun p => decide (p.2 = score))
      = (scoreRows v fetched).filter (fun p => decide (p.2 = score))) ∧
    astraQuerySimilar v top_k fetched
      = .ok (pyTake top_k (sortByScoreDesc (scoreRows v fetched))) := by
  refine ⟨filter_sortByScoreDesc _ _, ?_, filter_sortByScoreDesc _ _, ?_⟩
  · simp [pgQuerySimilar, hv, hne]
  · simp [astraQuerySimilar, hv, hne]

theorem claim_C10_witness :
    ((sortByScoreDesc (scoreRows (.list [.int 1])
        (pgFetchAll ⟨[(.str "A", [.int 1]), (.str "B", [.int 1])], []⟩))).filter
        (fun p => decide (p.2 = (1:ℝ)))
      = (scoreRows (.list [.int 1])
          (pgFetchAll ⟨[(.str "A", [.int 1]), (.str "B", [.int 1])], []⟩)).filter
          (fun p => decide (p.2 = (1:ℝ)))) ∧
    pgQuerySimilar Option.none (.list [.int 1]) 2
        ⟨[(.str "A", [.int 1]), (.str "B", [.int 1])], []⟩
      = .ok (pyTake 2 (sortByScoreDesc (scoreRows (.list [.int 1])
          (pgFetchAll ⟨[(.str "A", [.int 1]), (.str "B", [.int 1])], []⟩)))) ∧
    ((sortByScoreDesc (scoreRows (.list [.int 1])
        [(.str "A", [.int 1]), (.str "B", [.int 1])])).filter
        (fun p => decide (p.2 = (1:ℝ)))
      = (scoreRows (.list [.int 1])
          [(.str "A", [.int 1]), (.str "B", [.int 1])]).filter
          (fun p => decide (p.2 = (1:ℝ)))) ∧
    astraQuerySimilar (.list [.int 1]) 2
        [(.str "A", [.int 1]), (.str "B", [.int 1])]
      = .ok (pyTake 2 (sortByScoreDesc (scoreRows (.list [.int 1])
          [(.str "A", [.int 1]), (.str "B", [.int 1])]))) :=
  claim_C10 (.list [.int 1]) 2 ⟨[(.str "A", [.int 1]), (.str "B", [.int 1])], []⟩
    [(.str "A", [.int 1]), (.str "B", [.int 1])] 1 rfl (by decide)
